import Mathlib

/-
Verification development for the Ethiopia rooftop-PV assessment tool.

Shallow embedding of the numeric core:
  * src/modules/financial.py   (tariff projection, financial analysis,
                                consumption estimation)
  * src/modules/pv_calculator.py (panel sizing, cell-temperature safety check)

All monetary and physical quantities are modelled over ℚ (the Python source
uses floats; every computation the claims touch is plain field arithmetic,
comparisons and rounding, which ℚ models exactly).  Calendar quarters are
pairs (year, quarter) over ℤ, matching the `(year, quarter)` tuple keys of
the tariff dictionaries.
-/

namespace EthiopPV

/-! ## Tariff schedule (`project_electricity_price`, financial.py lines 30-152)

The Python function builds a nested dict `tariff_schedule`.  Each customer
class (and each residential tier) carries a current base price and a dict
from `(year, quarter)` to the scheduled unit price, 2024 Q1 through 2027 Q4.
We transcribe each dict as an association list with the entries in source
order. -/

/-- A tariff entry: current base price plus the quarterly schedule of future
prices (the `"base"` and `"increases"` keys of the Python dicts). -/
structure TierData where
  base : ℚ
  increases : List ((ℤ × ℤ) × ℚ)

/-- Residential tier 1 (0-50 kWh). -/
def tier1 : TierData :=
  { base := 0.27
    increases := [((2024,1),0.35), ((2024,2),0.43), ((2024,3),0.52), ((2024,4),0.60),
                  ((2025,1),0.68), ((2025,2),0.76), ((2025,3),0.84), ((2025,4),0.92),
                  ((2026,1),1.00), ((2026,2),1.08), ((2026,3),1.16), ((2026,4),1.24),
                  ((2027,1),1.32), ((2027,2),1.40), ((2027,3),1.48), ((2027,4),1.56)] }

/-- Residential tier 2 (51-100 kWh). -/
def tier2 : TierData :=
  { base := 0.77
    increases := [((2024,1),0.95), ((2024,2),1.13), ((2024,3),1.31), ((2024,4),1.49),
                  ((2025,1),1.67), ((2025,2),1.85), ((2025,3),2.03), ((2025,4),2.21),
                  ((2026,1),2.39), ((2026,2),2.57), ((2026,3),2.76), ((2026,4),2.94),
                  ((2027,1),3.12), ((2027,2),3.30), ((2027,3),3.48), ((2027,4),3.66)] }

/-- Residential tier 3 (101-200 kWh); also the default `"increases"` table of
the residential entry. -/
def tier3 : TierData :=
  { base := 1.63
    increases := [((2024,1),1.89), ((2024,2),2.15), ((2024,3),2.41), ((2024,4),2.67),
                  ((2025,1),2.93), ((2025,2),3.19), ((2025,3),3.45), ((2025,4),3.72),
                  ((2026,1),3.98), ((2026,2),4.24), ((2026,3),4.50), ((2026,4),4.76),
                  ((2027,1),5.02), ((2027,2),5.28), ((2027,3),5.55), ((2027,4),5.81)] }

/-- Residential tier 4 (201-300 kWh). -/
def tier4 : TierData :=
  { base := 2.00
    increases := [((2024,1),2.46), ((2024,2),2.92), ((2024,3),3.38), ((2024,4),3.84),
                  ((2025,1),4.30), ((2025,2),4.76), ((2025,3),5.22), ((2025,4),5.68),
                  ((2026,1),6.14), ((2026,2),6.60), ((2026,3),7.06), ((2026,4),7.52),
                  ((2027,1),7.98), ((2027,2),8.44), ((2027,3),8.89), ((2027,4),9.35)] }

/-- Residential tier 5 (301-400 kWh). -/
def tier5 : TierData :=
  { base := 2.20
    increases := [((2024,1),2.66), ((2024,2),3.12), ((2024,3),3.57), ((2024,4),4.03),
                  ((2025,1),4.49), ((2025,2),4.95), ((2025,3),5.41), ((2025,4),5.86),
                  ((2026,1),6.32), ((2026,2),6.78), ((2026,3),7.24), ((2026,4),7.70),
                  ((2027,1),8.15), ((2027,2),8.61), ((2027,3),9.07), ((2027,4),9.53)] }

/-- Residential tier 6 (401-500 kWh). -/
def tier6 : TierData :=
  { base := 2.41
    increases := [((2024,1),2.85), ((2024,2),3.29), ((2024,3),3.73), ((2024,4),4.17),
                  ((2025,1),4.62), ((2025,2),5.06), ((2025,3),5.50), ((2025,4),5.94),
                  ((2026,1),6.39), ((2026,2),6.83), ((2026,3),7.27), ((2026,4),7.71),
                  ((2027,1),8.16), ((2027,2),8.60), ((2027,3),9.04), ((2027,4),9.48)] }

/-- Residential tier 7 (above 500 kWh). -/
def tier7 : TierData :=
  { base := 2.48
    increases := [((2024,1),2.92), ((2024,2),3.35), ((2024,3),3.79), ((2024,4),4.23),
                  ((2025,1),4.66), ((2025,2),5.10), ((2025,3),5.54), ((2025,4),5.97),
                  ((2026,1),6.41), ((2026,2),6.84), ((2026,3),7.28), ((2026,4),7.72),
                  ((2027,1),8.15), ((2027,2),8.59), ((2027,3),9.03), ((2027,4),9.46)] }

/-- Commercial class. -/
def commercialData : TierData :=
  { base := 2.12
    increases := [((2024,1),2.61), ((2024,2),3.09), ((2024,3),3.57), ((2024,4),4.05),
                  ((2025,1),4.53), ((2025,2),5.01), ((2025,3),5.50), ((2025,4),5.98),
                  ((2026,1),6.46), ((2026,2),6.94), ((2026,3),7.42), ((2026,4),7.90),
                  ((2027,1),8.39), ((2027,2),8.87), ((2027,3),9.35), ((2027,4),9.83)] }

/-- Light industry (low voltage). -/
def industrialLvData : TierData :=
  { base := 1.53
    increases := [((2024,1),1.76), ((2024,2),2.02), ((2024,3),2.29), ((2024,4),2.56),
                  ((2025,1),2.82), ((2025,2),3.09), ((2025,3),3.36), ((2025,4),3.62),
                  ((2026,1),3.88), ((2026,2),4.15), ((2026,3),4.41), ((2026,4),4.68),
                  ((2027,1),4.93), ((2027,2),5.20), ((2027,3),5.46), ((2027,4),5.73)] }

/-- Medium industry. -/
def industrialMvData : TierData :=
  { base := 1.19
    increases := [((2024,1),1.39), ((2024,2),1.61), ((2024,3),1.83), ((2024,4),2.05),
                  ((2025,1),2.27), ((2025,2),2.49), ((2025,3),2.71), ((2025,4),2.94),
                  ((2026,1),3.16), ((2026,2),3.38), ((2026,3),3.60), ((2026,4),3.82),
                  ((2027,1),4.04), ((2027,2),4.26), ((2027,3),4.48), ((2027,4),4.70)] }

/-- High-voltage industry (the source uses the medium-industry figures). -/
def industrialHvData : TierData :=
  { base := 1.19
    increases := [((2024,1),1.39), ((2024,2),1.61), ((2024,3),1.83), ((2024,4),2.05),
                  ((2025,1),2.27), ((2025,2),2.49), ((2025,3),2.71), ((2025,4),2.94),
                  ((2026,1),3.16), ((2026,2),3.38), ((2026,3),3.60), ((2026,4),3.82),
                  ((2027,1),4.04), ((2027,2),4.26), ((2027,3),4.48), ((2027,4),4.70)] }

/-- Street lighting. -/
def streetLightData : TierData :=
  { base := 2.12
    increases := [((2024,1),0.35), ((2024,2),0.43), ((2024,3),0.52), ((2024,4),0.60),
                  ((2025,1),0.68), ((2025,2),0.76), ((2025,3),0.84), ((2025,4),0.92),
                  ((2026,1),1.00), ((2026,2),1.08), ((2026,3),1.16), ((2026,4),1.24),
                  ((2027,1),1.32), ((2027,2),1.40), ((2027,3),1.48), ((2027,4),1.56)] }

/-- The residential tier lookup `tariff_schedule["residential"][f"tier{i}"]`.
The index produced by `closestTier` is always in 1..7; the catch-all arm
(returning the default tier-3 data, the residential `"increases"` entry)
makes the function total but is never reached from this file's callers. -/
def residentialTier : ℕ → TierData
  | 1 => tier1
  | 2 => tier2
  | 3 => tier3
  | 4 => tier4
  | 5 => tier5
  | 6 => tier6
  | 7 => tier7
  | _ => tier3

/-- The twelve quarterly-increase tables of the tariff schedule: the seven
residential tiers and the five non-residential classes. -/
def allIncreaseTables : List (List ((ℤ × ℤ) × ℚ)) :=
  [tier1.increases, tier2.increases, tier3.increases, tier4.increases, tier5.increases,
   tier6.increases, tier7.increases, commercialData.increases, industrialLvData.increases,
   industrialMvData.increases, industrialHvData.increases, streetLightData.increases]

/-- Lookup in a `(year, quarter)`-keyed association list, modelling Python
dict indexing / the `(y, q) in d` membership test (dict keys compare by
equality). -/
def alookup (k : ℤ × ℤ) : List ((ℤ × ℤ) × ℚ) → Option ℚ
  | [] => none
  | e :: es => if k = e.1 then some e.2 else alookup k es

/-- Python `min` over a nonempty list of rationals (`min(diffs)`). -/
def listMin : List ℚ → ℚ
  | [] => 0
  | a :: l => l.foldl min a

/-- Python `list.index`: index of the first occurrence of `x`.  (On a list
not containing `x` Python raises; this total version returns the length,
a case never reached below because `pyIndex` is only applied to the minimum
of the same list.) -/
def pyIndex (x : ℚ) : List ℚ → ℕ
  | [] => 0
  | a :: l => if a = x then 0 else pyIndex x l + 1

/-- financial.py lines 158-161: `diffs = [abs(base_price - tier_i.base) ...]`,
`closest_tier = diffs.index(min(diffs)) + 1`. -/
def closestTier (base_price : ℚ) : ℕ :=
  let diffs := (List.range 7).map (fun i => |base_price - (residentialTier (i+1)).base|)
  pyIndex (listMin diffs) diffs + 1

/-- financial.py lines 155-165: for residential customers with a positive
supplied base price, the projection uses the quarterly schedule of the tier
whose base price is closest; otherwise it keeps the dict's default
`"increases"` (tier-3) table. -/
def residentialIncreases (base_price : ℚ) : List ((ℤ × ℤ) × ℚ) :=
  if 0 < base_price then (residentialTier (closestTier base_price)).increases
  else tier3.increases

/-- Resolve the `"increases"` table used by `project_electricity_price` for a
given customer type; `none` models `customer_type not in tariff_schedule`. -/
def incOfClass (customer_type : String) (base_price : ℚ) : Option (List ((ℤ × ℤ) × ℚ)) :=
  if customer_type = "residential" then some (residentialIncreases base_price)
  else if customer_type = "commercial" then some commercialData.increases
  else if customer_type = "industrial_lv" then some industrialLvData.increases
  else if customer_type = "industrial_mv" then some industrialMvData.increases
  else if customer_type = "industrial_hv" then some industrialHvData.increases
  else if customer_type = "street_light" then some streetLightData.increases
  else none

/-- financial.py lines 185-200: price of one target quarter.  Inside the known
schedule the tabulated price is used; otherwise the last known price
(2027 Q4) is compounded at 1.23 % per quarter, with the (possibly negative)
number of quarters elapsed since 2027 Q4 as the exponent. -/
def quarterPrice (inc : List ((ℤ × ℤ) × ℚ)) (target_year target_quarter : ℤ) : ℚ :=
  match alookup (target_year, target_quarter) inc with
  | some p => p
  | none =>
      let quarters_diff : ℤ := (target_year - 2027) * 4 + (target_quarter - 4)
      let last_price : ℚ := (alookup (2027, 4) inc).getD 0
      last_price * (1 + 0.0123) ^ quarters_diff

/-- financial.py lines 179-183: the (year, quarter) the loop iteration
`(year, quarter)` points at, starting from `(current_year, current_quarter)`.
Python's `%` on these operands agrees with `Int.emod`. -/
def targetOf (current_year current_quarter : ℤ) (year quarter : ℤ) : ℤ × ℤ :=
  let target_year := current_year + year
  let target_quarter := (current_quarter - 1 + quarter) % 4 + 1
  let target_year' :=
    if target_quarter < current_quarter ∧ target_year = current_year then target_year + 1
    else target_year
  (target_year', target_quarter)

/-- financial.py lines 10-224, `project_electricity_price`: walk
quarter-by-quarter for `years` years from the start point, price each quarter
(tabulated or extrapolated; for an unknown customer type, compound the base
price by 0.74 % per quarter instead), then average each consecutive block of
4 quarters into one yearly figure. -/
def project_electricity_price (customer_type : String) (current_year_quarter : ℤ × ℤ)
    (base_price : ℚ) (years : ℕ) : List ℚ :=
  let current_year := current_year_quarter.1
  let current_quarter := current_year_quarter.2
  let result : List ℚ :=
    match incOfClass customer_type base_price with
    | some inc =>
        (List.range years).flatMap (fun year : ℕ =>
          (List.range 4).map (fun q : ℕ =>
            let t := targetOf current_year current_quarter (year : ℤ) ((q : ℤ) + 1)
            quarterPrice inc t.1 t.2))
    | none =>
        (List.range (years * 4)).map (fun k => base_price * 1.0074 ^ k)
  (List.range years).map (fun i =>
    let start_idx := i * 4
    if start_idx + 4 ≤ result.length then
      ((result.drop start_idx).take 4).sum / 4
    else
      let rest := result.drop start_idx
      rest.sum / (rest.length : ℚ))

/-! ## PV production engine (`calculate_pv_production`, pv_calculator.py)

Only the repository-side arithmetic is embedded.  The pvlib library calls
(solar position, `get_total_irradiance`, `sapm_cell`, `pvwatts_dc`) are
external collaborators; where a claim concerns the code surrounding such a
call, the call's output series appears as an input of the embedded
function. -/

/-- Python `int(x)` on a float: truncation toward zero. -/
def pyInt (q : ℚ) : ℤ :=
  if q < 0 then -⌊-q⌋ else ⌊q⌋

/-- pv_calculator.py lines 173-175: `panel_area = panel_width*panel_height`;
`spacing_area = panel_area*(1+spacing_factor)`;
`num_panels = int(roof_area / spacing_area)`. -/
def num_panels (roof_area panel_width panel_height spacing_factor : ℚ) : ℤ :=
  let panel_area := panel_width * panel_height
  let spacing_area := panel_area * (1 + spacing_factor)
  pyInt (roof_area / spacing_area)

/-- pv_calculator.py lines 178-184: total panel area and system capacity in
kW derived from the panel count. -/
def system_capacity (roof_area panel_width panel_height spacing_factor efficiency : ℚ) : ℚ :=
  let panel_area := panel_width * panel_height
  let total_panel_area := (num_panels roof_area panel_width panel_height spacing_factor : ℚ) * panel_area
  let stc_rating_per_area := 1000 * efficiency
  total_panel_area * stc_rating_per_area / 1000

/-- pv_calculator.py lines 251-253: the fallback linear cell-temperature
model `ambient + poa*0.025`, clipped to [-20, 85] °C, applied elementwise to
the aligned ambient-temperature and POA-irradiance series. -/
def fallbackCellTemp (temp poa : List ℚ) : List ℚ :=
  (temp.zip poa).map (fun tp => max (-20) (min 85 (tp.1 + tp.2 * 0.025)))

/-- pv_calculator.py lines 248-255: the safety check after the primary SAPM
cell-temperature model.  `primary` is the output series of the external
`pvlib.temperature.sapm_cell` call; `temp` and `poa` are the ambient
temperature and POA irradiance series.  If the primary series' maximum
exceeds 100 °C or its minimum is below -20 °C, the whole series is replaced
by the clipped linear fallback; otherwise it is kept unchanged.  (On an
empty series pandas max/min comparisons are false and the primary series is
kept, matching `List.any` on `[]`.) -/
def cellTemperatureSafetyCheck (primary temp poa : List ℚ) : List ℚ :=
  if primary.any (fun x => decide (100 < x)) || primary.any (fun x => decide (x < -20)) then
    fallbackCellTemp temp poa
  else primary

/-! ## Financial analysis (`financial_analysis`, financial.py lines 226-374) -/

/-- Inputs of `financial_analysis`: the two fields read from `pv_results`
plus the scalar keyword parameters.  `annual_price_increase` is carried (and
perturbed by the scenarios) but never read by any computation, exactly as in
the source. -/
structure FinParams where
  system_capacity_kw : ℚ
  annual_energy_kwh : ℚ
  cost_per_watt : ℚ
  electricity_price : ℚ
  customer_type : String
  current_year_quarter : ℤ × ℤ
  annual_price_increase : ℚ
  lifetime : ℕ
  discount_rate : ℚ
  currency_conversion_rate : ℚ

/-- All keys of the result dict of `financial_analysis` except `scenarios`
(the three lists of the nested `electricity_prices` dict are inlined as the
last three fields). -/
structure FinBody where
  investment_usd : ℚ
  investment_etb : ℚ
  annual_savings_first_year_usd : ℚ
  annual_savings_first_year_etb : ℚ
  cumulative_savings_usd : ℚ
  cumulative_savings_etb : ℚ
  npv_usd : ℚ
  npv_etb : ℚ
  payback_period_years : ℕ
  roi_percent : ℚ
  lcoe_usd_per_kwh : ℚ
  lcoe_etb_per_kwh : ℚ
  cash_flows : List ℚ
  cash_flows_etb : List ℚ
  cumulative_cash_flow : List ℚ
  cumulative_cash_flow_etb : List ℚ
  currency_conversion_rate : ℚ
  yearly_prices_etb : List ℚ
  yearly_prices_usd : List ℚ
  yearly_savings_usd : List ℚ

/-- The full result dict: the scalar/list fields plus the `scenarios` entry,
which maps scenario names to results of the same shape. -/
inductive FinResult where
  | mk (body : FinBody) (scenarios : List (String × FinResult))

/-- The non-scenario fields of a result. -/
def FinResult.body : FinResult → FinBody
  | .mk b _ => b

/-- The `scenarios` entry of a result. -/
def FinResult.scenarios : FinResult → List (String × FinResult)
  | .mk _ s => s

/-- `np.cumsum`: running sums, same length as the input. -/
def cumsum (l : List ℚ) : List ℚ :=
  (l.scanl (· + ·) 0).tail

/-- financial.py lines 287-289: `npv += saving / ((1+discount_rate) ** (i+1))`
summed over the savings list starting at index `i`. -/
def discountedSum (discount_rate : ℚ) : List ℚ → ℕ → ℚ
  | [], _ => 0
  | s :: rest, i => s / (1 + discount_rate) ^ (i + 1) + discountedSum discount_rate rest (i + 1)

/-- financial.py lines 291-299, the payback loop: walk the savings list
accumulating `cumulative_savings`; on the first year whose cumulative sum
reaches the investment return that 1-based year index, else the default. -/
def paybackAux (investment : ℚ) : List ℚ → ℚ → ℕ → ℕ → ℕ
  | [], _, _, default => default
  | s :: rest, cumulative, i, default =>
    if investment ≤ cumulative + s then i + 1
    else paybackAux investment rest (cumulative + s) (i + 1) default

/-- Payback period: first 1-based index at which cumulative savings reach
the investment, or `lifetime` if that never happens. -/
def payback_period (investment : ℚ) (savings : List ℚ) (lifetime : ℕ) : ℕ :=
  paybackAux investment savings 0 0 lifetime

/-- financial.py lines 262-372 without the scenario block: investment,
tariff-projected savings, NPV, payback, ROI, LCOE, cash flows, and the
ETB-converted copies of each currency field. -/
def financial_body (P : FinParams) : FinBody :=
  let investment := P.system_capacity_kw * 1000 * P.cost_per_watt
  let electricity_price_etb := P.electricity_price * P.currency_conversion_rate
  let yearly_prices_etb :=
    project_electricity_price P.customer_type P.current_year_quarter electricity_price_etb
      P.lifetime
  let yearly_prices_usd := yearly_prices_etb.map (fun price => price / P.currency_conversion_rate)
  let savings := yearly_prices_usd.map (fun price => P.annual_energy_kwh * price)
  let npv := -investment + discountedSum P.discount_rate savings 0
  let payback := payback_period investment savings P.lifetime
  let roi := (savings.sum - investment) / investment * 100
  let cash_flows := -investment :: savings
  let cumulative_cash_flow := cumsum cash_flows
  let lcoe := if 0 < P.annual_energy_kwh then investment / (P.annual_energy_kwh * P.lifetime) else 0
  { investment_usd := investment
    investment_etb := investment * P.currency_conversion_rate
    annual_savings_first_year_usd := savings.headD 0
    annual_savings_first_year_etb := savings.headD 0 * P.currency_conversion_rate
    cumulative_savings_usd := savings.sum
    cumulative_savings_etb := savings.sum * P.currency_conversion_rate
    npv_usd := npv
    npv_etb := npv * P.currency_conversion_rate
    payback_period_years := payback
    roi_percent := roi
    lcoe_usd_per_kwh := lcoe
    lcoe_etb_per_kwh := lcoe * P.currency_conversion_rate
    cash_flows := cash_flows
    cash_flows_etb := cash_flows.map (fun flow => flow * P.currency_conversion_rate)
    cumulative_cash_flow := cumulative_cash_flow
    cumulative_cash_flow_etb := cumulative_cash_flow.map (fun flow => flow * P.currency_conversion_rate)
    currency_conversion_rate := P.currency_conversion_rate
    yearly_prices_etb := yearly_prices_etb
    yearly_prices_usd := yearly_prices_usd
    yearly_savings_usd := savings }

/-- financial.py lines 319-329: the optimistic scenario parameters.  The
recursive call does not pass `lifetime`, so the scenario uses the default
value 25. -/
def optimisticParams (P : FinParams) : FinParams :=
  { P with
    cost_per_watt := P.cost_per_watt * 0.9
    electricity_price := P.electricity_price * 1.1
    annual_price_increase := P.annual_price_increase * 1.2
    discount_rate := P.discount_rate * 0.9
    lifetime := 25 }

/-- financial.py lines 332-342: the pessimistic scenario parameters (default
`lifetime` 25, as in the optimistic case). -/
def pessimisticParams (P : FinParams) : FinParams :=
  { P with
    cost_per_watt := P.cost_per_watt * 1.1
    electricity_price := P.electricity_price * 0.9
    annual_price_increase := P.annual_price_increase * 0.8
    discount_rate := P.discount_rate * 1.1
    lifetime := 25 }

/-- financial.py `financial_analysis`: the scenario block runs only when
`create_scenarios` is true, and the two inner calls pass
`create_scenarios=False`, so their own `scenarios` entries are empty. -/
def financial_analysis (P : FinParams) : Bool → FinResult
  | false => .mk (financial_body P) []
  | true =>
      .mk (financial_body P)
        [("optimistic", financial_analysis (optimisticParams P) false),
         ("pessimistic", financial_analysis (pessimisticParams P) false)]
termination_by b => b.toNat

/-- A concrete parameter record (the documented defaults of
`financial_analysis` applied to a 5 kW / 8000 kWh-per-year system), used to
instantiate universally quantified statements. -/
def testParams : FinParams :=
  { system_capacity_kw := 5
    annual_energy_kwh := 8000
    cost_per_watt := 1.5
    electricity_price := 0.05
    customer_type := "residential"
    current_year_quarter := (2024, 1)
    annual_price_increase := 0.03
    lifetime := 25
    discount_rate := 0.06
    currency_conversion_rate := 130 }

/-! ## Consumption estimator (`estimate_consumption_and_capacity`,
financial.py lines 376-589) -/

/-- One tariff bracket `{'min': .., 'max': .., 'price': ..}`; `hi = none`
models `float('inf')`. -/
structure Bracket where
  lo : ℚ
  hi : Option ℚ
  price : ℚ

/-- The residential phase-0 brackets of `tariff_data`. -/
def residentialBrackets : List Bracket :=
  [⟨0, some 50, 0.27⟩, ⟨50, some 100, 0.77⟩, ⟨100, some 200, 1.63⟩,
   ⟨200, some 300, 2.00⟩, ⟨300, some 400, 2.20⟩, ⟨400, some 500, 2.41⟩,
   ⟨500, none, 2.48⟩]

/-- `tariff_data[customer_type]["phases"][0]`.  The `phases` dicts hold only
key 0, so `current_phase = min(phase, max(keys)) = 0` regardless of the
`phase` argument.  The catch-all arm is unreachable: this function is applied
only after the unknown-class substitution. -/
def bracketsOf : String → List Bracket
  | "residential" => residentialBrackets
  | "commercial" => [⟨0, none, 2.12⟩]
  | "industrial_lv" => [⟨0, none, 1.53⟩]
  | "industrial_mv" => [⟨0, none, 1.19⟩]
  | "industrial_hv" => [⟨0, none, 1.19⟩]
  | "street_light" => [⟨0, none, 2.12⟩]
  | _ => residentialBrackets

/-- The optional `"demand_charge"` entry of `tariff_data[customer_type]`. -/
def demandChargeOf : String → Option ℚ
  | "industrial_lv" => some 53.58
  | "industrial_mv" => some 53.58
  | "industrial_hv" => some 53.58
  | _ => none

/-- Python's substring test `"industrial" in customer_type`, evaluated on the
normalized class names (after the unknown-class substitution the customer
type is always one of the six class names, on which the substring test is
exactly this disjunction). -/
def isIndustrial (ct : String) : Bool :=
  ct == "industrial_lv" || ct == "industrial_mv" || ct == "industrial_hv"

/-- The six customer classes that are keys of `tariff_data`. -/
def knownClasses : List String :=
  ["residential", "commercial", "industrial_lv", "industrial_mv", "industrial_hv",
   "street_light"]

/-- financial.py lines 450-451: an unknown customer type silently defaults
to `"residential"`. -/
def substClass (ct : String) : String :=
  if ct ∈ knownClasses then ct else "residential"

/-- Per-class default consumption table (financial.py lines 537-545),
`default_consumptions.get(customer_type, 250)`. -/
def defaultConsumption : String → ℚ
  | "residential" => 250
  | "commercial" => 500
  | "industrial_lv" => 1000
  | "industrial_mv" => 5000
  | "industrial_hv" => 10000
  | "street_light" => 300
  | _ => 250

/-- Whether a bracket satisfies `bracket_min < bracket_max` (true for an
infinite upper bound). -/
def bracketOpen (b : Bracket) : Bool :=
  match b.hi with
  | some h => decide (b.lo < h)
  | none => true

/-- The `for bracket in tariff_brackets` loop of the nested `calculate_bill`
(financial.py lines 498-513): charge each bracket's units at the bracket
price until the remaining consumption is exhausted. -/
def calcBillAux : List Bracket → ℚ → ℚ → ℚ
  | [], _, bill => bill
  | b :: rest, remaining, bill =>
    if remaining ≤ 0 then bill
    else if 0 < remaining ∧ bracketOpen b then
      let units := match b.hi with
        | some h => min remaining (h - b.lo)
        | none => remaining
      calcBillAux rest (remaining - units) (bill + units * b.price)
    else calcBillAux rest remaining bill

/-- financial.py lines 498-519: tier-bracket charges, plus the 10 ETB fixed
service charge, times 1.15 (15 % VAT). -/
def calculate_bill (brackets : List Bracket) (consumption : ℚ) : ℚ :=
  (calcBillAux brackets consumption 0 + 10) * 1.15

/-- financial.py lines 522-529, the bisection `while max - min > 1` loop.
The interval width halves on every iteration independently of the branch
taken, so from the initial interval [0, 10000] the Python loop runs exactly
14 iterations; the fuel argument makes the recursion structural and any fuel
of at least 14 yields the loop's exit state (proved below). -/
def bisectionLoop (monthly_bill : ℚ) (brackets : List Bracket) :
    ℕ → ℚ → ℚ → ℚ × ℚ
  | 0, min_consumption, max_consumption => (min_consumption, max_consumption)
  | n + 1, min_consumption, max_consumption =>
    if 1 < max_consumption - min_consumption then
      let mid := (min_consumption + max_consumption) / 2
      if calculate_bill brackets mid < monthly_bill then
        bisectionLoop monthly_bill brackets n mid max_consumption
      else
        bisectionLoop monthly_bill brackets n min_consumption mid
    else (min_consumption, max_consumption)

/-- Python `round()`: round half to even (banker's rounding). -/
def pyRound (q : ℚ) : ℤ :=
  let f := ⌊q⌋
  let r := q - f
  if r < 1 / 2 then f
  else if 1 / 2 < r then f + 1
  else if 2 ∣ f then f else f + 1

/-- Result dict of `estimate_consumption_and_capacity`. -/
structure EstimateResult where
  estimated_monthly_consumption_kwh : ℚ
  estimated_yearly_consumption_kwh : ℚ
  average_electricity_price_etb : ℚ
  recommended_capacity_kw : ℚ
  expected_coverage_percent : ℚ

/-- financial.py lines 446-589 after the unknown-class substitution:
estimate consumption (direct division, demand-charge-adjusted division, or
residential bisection), substitute the per-class default when the estimate
is non-positive, then size the recommended capacity by averaging the
capacity-factor and peak-sun-hours heuristics, flooring at 1 kW and rounding
to the nearest 0.5 kW. -/
def estimateBody (monthly_bill : ℚ) (customer_type : String)
    (electricity_price : Option ℚ) (peak_demand_kw : Option ℚ) : EstimateResult :=
  let tariff_brackets := bracketsOf customer_type
  let firstBracket := tariff_brackets.headD ⟨0, none, 0⟩
  let s1 : ℚ × ℚ :=
    match electricity_price with
    | some price =>
        let est :=
          if isIndustrial customer_type ∧ peak_demand_kw.isSome ∧
              (demandChargeOf customer_type).isSome then
            let demand_charge := peak_demand_kw.getD 0 * (demandChargeOf customer_type).getD 0
            let energy_bill := max 0 (monthly_bill - demand_charge)
            if 0 < price then energy_bill / price else 0
          else if 0 < price then monthly_bill / price else 0
        (est, price)
    | none =>
        if isIndustrial customer_type ∧ peak_demand_kw.isSome ∧
            (demandChargeOf customer_type).isSome then
          let flat_rate_price := firstBracket.price
          let demand_charge := peak_demand_kw.getD 0 * (demandChargeOf customer_type).getD 0
          let energy_bill := max 0 (monthly_bill - demand_charge)
          (if 0 < energy_bill ∧ 0 < flat_rate_price then energy_bill / flat_rate_price else 0,
           flat_rate_price)
        else if isIndustrial customer_type ∨ customer_type = "commercial" ∨
            customer_type = "street_light" then
          let flat_rate_price := firstBracket.price
          (if 0 < flat_rate_price then monthly_bill / flat_rate_price else 0, flat_rate_price)
        else
          let r := bisectionLoop monthly_bill tariff_brackets 20 0 10000
          let estimated := (r.1 + r.2) / 2
          (estimated, if 0 < estimated then monthly_bill / estimated else firstBracket.price)
  let est0 := s1.1
  let avg0 := s1.2
  let estimated_consumption := if est0 ≤ 0 then defaultConsumption customer_type else est0
  let avg_price := if est0 ≤ 0 ∧ avg0 ≤ 0 then firstBracket.price else avg0
  let daily_consumption := estimated_consumption / 30
  let target_coverage := (0.8 : ℚ)
  let daily_production_needed := daily_consumption * target_coverage
  let capacity_factor := (0.165 : ℚ)
  let hours_per_day := (24 : ℚ)
  let recommended_capacity_kw := daily_production_needed / (capacity_factor * hours_per_day)
  let peak_sun_hours := (4.5 : ℚ)
  let system_efficiency := (0.86 : ℚ)
  let recommended_capacity_kw_alt := daily_production_needed / (peak_sun_hours * system_efficiency)
  let averaged := (recommended_capacity_kw + recommended_capacity_kw_alt) / 2
  let min_capacity := (1.0 : ℚ)
  let rounded := max min_capacity ((pyRound (averaged * 2) : ℚ) / 2)
  { estimated_monthly_consumption_kwh := estimated_consumption
    estimated_yearly_consumption_kwh := estimated_consumption * 12
    average_electricity_price_etb := avg_price
    recommended_capacity_kw := rounded
    expected_coverage_percent := target_coverage * 100 }

/-- financial.py `estimate_consumption_and_capacity`.  The `phase` argument
is accepted as in the source; since every `phases` dict holds only key 0,
`min(phase, 0)` is 0 and the phase never influences the result. -/
def estimate_consumption_and_capacity (monthly_bill : ℚ) (customer_type : String)
    (electricity_price : Option ℚ) (phase : ℕ) (peak_demand_kw : Option ℚ) : EstimateResult :=
  let _ := phase
  estimateBody monthly_bill (substClass customer_type) electricity_price peak_demand_kw

/-! ## Theorems -/

/-- C1 (counterexample): the claim that any primary cell-temperature value
outside [-20, 85] °C triggers the linear fallback and yields final values
inside [-20, 85] °C is false: a primary series containing 90 °C (outside
[-20, 85] but not above 100) is kept unchanged, and its final value exceeds
85 °C. -/
theorem cell_temp_spec_range_counterexample :
    ¬ ∀ (primary temp poa : List ℚ),
        (∃ x ∈ primary, x < -20 ∨ 85 < x) →
        cellTemperatureSafetyCheck primary temp poa = fallbackCellTemp temp poa ∧
        ∀ y ∈ cellTemperatureSafetyCheck primary temp poa, -20 ≤ y ∧ y ≤ 85 := by
  intro hclaim
  have h := hclaim [90] [30] [400] ⟨90, by simp, Or.inr (by norm_num)⟩
  have heval : cellTemperatureSafetyCheck [90] [30] [400] = [90] := by
    norm_num [cellTemperatureSafetyCheck]
  have h85 := (h.2 90 (by rw [heval]; simp)).2
  norm_num at h85

/-- C1 (amended): whenever the primary SAPM series has a value above 100 °C
or below -20 °C (the source's actual trigger), the fallback linear model
`ambient + poa*0.025` is applied and every final cell-temperature value lies
within [-20, 85] °C. -/
theorem cell_temp_fallback_applies_and_clips (primary temp poa : List ℚ)
    (h : ∃ x ∈ primary, 100 < x ∨ x < -20) :
    cellTemperatureSafetyCheck primary temp poa = fallbackCellTemp temp poa ∧
    ∀ y ∈ cellTemperatureSafetyCheck primary temp poa, -20 ≤ y ∧ y ≤ 85 := by
  have hcond : (primary.any (fun x => decide (100 < x))
      || primary.any (fun x => decide (x < -20))) = true := by
    rcases h with ⟨x, hx, hgt | hlt⟩
    · simp only [Bool.or_eq_true, List.any_eq_true, decide_eq_true_eq]
      exact Or.inl ⟨x, hx, hgt⟩
    · simp only [Bool.or_eq_true, List.any_eq_true, decide_eq_true_eq]
      exact Or.inr ⟨x, hx, hlt⟩
  have heq : cellTemperatureSafetyCheck primary temp poa = fallbackCellTemp temp poa := by
    unfold cellTemperatureSafetyCheck
    rw [if_pos hcond]
  refine ⟨heq, ?_⟩
  rw [heq]
  intro y hy
  rcases List.mem_map.mp hy with ⟨tp, _, rfl⟩
  exact ⟨le_max_left _ _, max_le (by norm_num) (min_le_left _ _)⟩

/-- C1 (witness): a primary value of 150 °C over 30 °C ambient and 400 W/m²
POA triggers the fallback. -/
theorem cell_temp_fallback_applies_and_clips_witness :
    cellTemperatureSafetyCheck [150] [30] [400] = fallbackCellTemp [30] [400] ∧
    ∀ y ∈ cellTemperatureSafetyCheck [150] [30] [400], -20 ≤ y ∧ y ≤ 85 :=
  cell_temp_fallback_applies_and_clips [150] [30] [400]
    ⟨150, by simp, Or.inl (by norm_num)⟩

/-- C2: projecting residential prices from (2024, 1) for one year with base
price 1.63 yields a single yearly figure, the mean of the four 2024 tier-3
quarterly prices, which is exactly 2.28. -/
theorem project_residential_first_year_average :
    project_electricity_price "residential" (2024, 1) 1.63 1
      = [((1.89:ℚ) + 2.15 + 2.41 + 2.67) / 4] ∧
    ((1.89:ℚ) + 2.15 + 2.41 + 2.67) / 4 = 2.28 := by
  constructor
  · norm_num [project_electricity_price, incOfClass, residentialIncreases, closestTier,
      pyIndex, listMin, residentialTier, tier1, tier2, tier3, tier4, tier5, tier6, tier7,
      quarterPrice, targetOf, alookup, List.range_succ, abs_of_nonneg, abs_of_nonpos,
      min_def, List.flatMap]
  · norm_num

/-- C5 (counterexample): the claim that the panel count equals the floor of
`roof_area / (panel_width*panel_height*(1+spacing_factor))` for *every*
parameter combination with positive roof area fails: for a negative packing
denominator Python's `int()` truncates toward zero (-2) while the floor is
-3. -/
theorem num_panels_floor_counterexample :
    ¬ ∀ (roof_area panel_width panel_height spacing_factor : ℚ),
        0 < roof_area →
        num_panels roof_area panel_width panel_height spacing_factor
          = ⌊roof_area / (panel_width * panel_height * (1 + spacing_factor))⌋ := by
  intro hclaim
  have h := hclaim 10 1.7 1 (-3) (by norm_num)
  have h1 : num_panels 10 1.7 1 (-3) = -2 := by norm_num [num_panels, pyInt]
  have h2 : ⌊(10:ℚ) / (1.7 * 1 * (1 + (-3)))⌋ = -3 := by norm_num
  rw [h1, h2] at h
  exact absurd h (by norm_num)

/-- C5 (amended): whenever the packing denominator
`panel_width*panel_height*(1+spacing_factor)` is positive (in particular for
all physical panel dimensions), the computed panel count equals the floor of
`roof_area / (panel_width*panel_height*(1+spacing_factor))` exactly; the
three concrete cases of the claim evaluate to 4, 49 and 490 panels. -/
theorem num_panels_eq_floor :
    (∀ (roof_area panel_width panel_height spacing_factor : ℚ),
        0 < roof_area →
        0 < panel_width * panel_height * (1 + spacing_factor) →
        num_panels roof_area panel_width panel_height spacing_factor
          = ⌊roof_area / (panel_width * panel_height * (1 + spacing_factor))⌋) ∧
    num_panels 10 1.7 1 0.2 = 4 ∧ num_panels 100 1.7 1 0.2 = 49 ∧
    num_panels 1000 1.7 1 0.2 = 490 := by
  refine ⟨?_, by norm_num [num_panels, pyInt], by norm_num [num_panels, pyInt],
    by norm_num [num_panels, pyInt]⟩
  intro ra w h s hra hsp
  show pyInt (ra / (w * h * (1 + s))) = ⌊ra / (w * h * (1 + s))⌋
  unfold pyInt
  rw [if_neg (not_lt.mpr (le_of_lt (div_pos hra hsp)))]

/-- C5 (witness): the general floor identity instantiated at a 10 m² roof
with the 1.7 m × 1.0 m panel and spacing factor 0.2. -/
theorem num_panels_eq_floor_witness :
    num_panels 10 1.7 1 0.2 = ⌊(10:ℚ) / (1.7 * 1 * (1 + 0.2))⌋ :=
  num_panels_eq_floor.1 10 1.7 1 0.2 (by norm_num) (by norm_num)

/-- `foldl min` is bounded by its initial accumulator. -/
lemma foldl_min_le_init (l : List ℚ) : ∀ a : ℚ, l.foldl min a ≤ a := by
  induction l with
  | nil => intro a; simp
  | cons x xs ih =>
    intro a
    simp only [List.foldl_cons]
    exact le_trans (ih (min a x)) (min_le_left a x)

/-- `foldl min` is bounded by every list element. -/
lemma foldl_min_le_mem (l : List ℚ) : ∀ (a x : ℚ), x ∈ l → l.foldl min a ≤ x := by
  induction l with
  | nil => intro a x hx; simp at hx
  | cons y ys ih =>
    intro a x hx
    simp only [List.foldl_cons]
    rcases List.mem_cons.mp hx with rfl | hmem
    · exact le_trans (foldl_min_le_init ys (min a x)) (min_le_right a x)
    · exact ih (min a y) x hmem

/-- `foldl min` attains either the accumulator or a list element. -/
lemma foldl_min_mem (l : List ℚ) : ∀ a : ℚ, l.foldl min a = a ∨ l.foldl min a ∈ l := by
  induction l with
  | nil => intro a; left; rfl
  | cons y ys ih =>
    intro a
    simp only [List.foldl_cons]
    rcases ih (min a y) with h | h
    · rcases min_cases a y with ⟨hm, _⟩ | ⟨hm, _⟩
      · left; rw [h, hm]
      · right; rw [h, hm]; exact List.mem_cons_self y ys
    · right; exact List.mem_cons_of_mem y h

/-- `listMin` is a lower bound of the list. -/
lemma listMin_le (l : List ℚ) (x : ℚ) (hx : x ∈ l) : listMin l ≤ x := by
  cases l with
  | nil => simp at hx
  | cons a as =>
    rcases List.mem_cons.mp hx with rfl | hmem
    · exact foldl_min_le_init as x
    · exact foldl_min_le_mem as a x hmem

/-- `listMin` of a nonempty list is attained. -/
lemma listMin_mem (l : List ℚ) (h : l ≠ []) : listMin l ∈ l := by
  cases l with
  | nil => exact absurd rfl h
  | cons a as =>
    rcases foldl_min_mem as a with h1 | h1
    · rw [listMin, h1]; exact List.mem_cons_self a as
    · exact List.mem_cons_of_mem a h1

/-- `pyIndex` of a present element is a valid index. -/
lemma pyIndex_lt_length (x : ℚ) (l : List ℚ) (hx : x ∈ l) : pyIndex x l < l.length := by
  induction l with
  | nil => simp at hx
  | cons a as ih =>
    by_cases ha : a = x
    · simp [pyIndex, ha]
    · rcases List.mem_cons.mp hx with rfl | hmem
      · exact absurd rfl ha
      · simp only [pyIndex, if_neg ha, List.length_cons]
        exact Nat.succ_lt_succ (ih hmem)

/-- The element at `pyIndex x l` is `x` itself. -/
lemma get_pyIndex (x : ℚ) (l : List ℚ) (hx : x ∈ l) :
    l.get ⟨pyIndex x l, pyIndex_lt_length x l hx⟩ = x := by
  induction l with
  | nil => simp at hx
  | cons a as ih =>
    by_cases ha : a = x
    · simp [pyIndex, ha]
    · rcases List.mem_cons.mp hx with rfl | hmem
      · exact absurd rfl ha
      · simp only [pyIndex, if_neg ha]
        exact ih hmem

/-- The tier-distance list of `closestTier`, elementwise. -/
lemma diffs_get (bp : ℚ) (k : ℕ)
    (hk : k < ((List.range 7).map (fun i => |bp - (residentialTier (i+1)).base|)).length) :
    ((List.range 7).map (fun i => |bp - (residentialTier (i+1)).base|)).get ⟨k, hk⟩
      = |bp - (residentialTier (k+1)).base| := by
  simp [List.get_eq_getElem]

/-- C7: for residential projections with a positive supplied base price, the
quarterly schedule used is that of the tier (index in 1..7) whose base price
has the smallest absolute difference from the supplied base price; the
selection reads nothing but the base price. -/
theorem residential_tier_by_closest_base_price (bp : ℚ) (h : 0 < bp) :
    residentialIncreases bp = (residentialTier (closestTier bp)).increases ∧
    1 ≤ closestTier bp ∧ closestTier bp ≤ 7 ∧
    ∀ i, 1 ≤ i → i ≤ 7 →
      |bp - (residentialTier (closestTier bp)).base| ≤ |bp - (residentialTier i).base| := by
  have hfirst : residentialIncreases bp = (residentialTier (closestTier bp)).increases := by
    unfold residentialIncreases
    rw [if_pos h]
  have hlen : ((List.range 7).map (fun i => |bp - (residentialTier (i+1)).base|)).length = 7 := by
    simp
  have hne : ((List.range 7).map (fun i => |bp - (residentialTier (i+1)).base|)) ≠ [] := by
    intro hc
    rw [hc] at hlen
    simp at hlen
  have hmem := listMin_mem _ hne
  have hidx' := pyIndex_lt_length _ _ hmem
  have hclosest : closestTier bp
      = pyIndex (listMin ((List.range 7).map (fun i => |bp - (residentialTier (i+1)).base|)))
          ((List.range 7).map (fun i => |bp - (residentialTier (i+1)).base|)) + 1 := rfl
  refine ⟨hfirst, by omega, by rw [hclosest]; omega, ?_⟩
  intro i h1 h7
  have hk : i - 1 < ((List.range 7).map (fun j => |bp - (residentialTier (j+1)).base|)).length := by
    omega
  have hgi : |bp - (residentialTier i).base|
      = ((List.range 7).map (fun j => |bp - (residentialTier (j+1)).base|)).get ⟨i - 1, hk⟩ := by
    rw [diffs_get]
    have : i - 1 + 1 = i := by omega
    rw [this]
  have hgc : |bp - (residentialTier (closestTier bp)).base|
      = listMin ((List.range 7).map (fun j => |bp - (residentialTier (j+1)).base|)) := by
    rw [hclosest]
    rw [← diffs_get bp (pyIndex _ _) hidx']
    rw [get_pyIndex _ _ hmem]
  rw [hgi, hgc]
  exact listMin_le _ _ (List.get_mem _ _ _)

/-- C7 (witness): at base price 1.63 the selected tier's schedule is used
and its base-price distance is minimal (compared here against tier 1). -/
theorem residential_tier_by_closest_base_price_witness :
    residentialIncreases 1.63 = (residentialTier (closestTier 1.63)).increases ∧
    |(1.63:ℚ) - (residentialTier (closestTier 1.63)).base|
      ≤ |(1.63:ℚ) - (residentialTier 1).base| := by
  have h := residential_tier_by_closest_base_price 1.63 (by norm_num)
  exact ⟨h.1, h.2.2.2 1 le_rfl (by norm_num)⟩

/-- `alookup` misses every table whose keys all have year at most 2027 when
the requested year is greater. -/
lemma alookup_year_gt (l : List ((ℤ × ℤ) × ℚ)) (hl : ∀ e ∈ l, e.1.1 ≤ 2027)
    (y q : ℤ) (hy : 2027 < y) : alookup (y, q) l = none := by
  induction l with
  | nil => rfl
  | cons e es ih =>
    have he := hl e (List.mem_cons_self e es)
    rw [alookup, if_neg]
    · exact ih (fun e' he' => hl e' (List.mem_cons_of_mem _ he'))
    · intro hc
      rw [← hc] at he
      simp at he
      omega

/-- Every residential tier's schedule is one of the twelve tables. -/
lemma residentialTier_mem (k : ℕ) : (residentialTier k).increases ∈ allIncreaseTables := by
  unfold residentialTier
  split <;> simp [allIncreaseTables]

/-- The table resolved for any known class is one of the twelve tables. -/
lemma incOfClass_mem (ct : String) (bp : ℚ) (inc : List ((ℤ × ℤ) × ℚ))
    (h : incOfClass ct bp = some inc) : inc ∈ allIncreaseTables := by
  unfold incOfClass at h
  split_ifs at h <;> injection h with h <;> subst h
  · unfold residentialIncreases
    split_ifs
    · exact residentialTier_mem _
    · simp [allIncreaseTables]
  all_goals simp [allIncreaseTables]

/-- All tabulated keys have year at most 2027. -/
lemma tables_year_le : ∀ inc ∈ allIncreaseTables, ∀ e ∈ inc, e.1.1 ≤ 2027 := by decide

/-- Every (year, quarter) with 2024 ≤ year ≤ 2027 and 1 ≤ quarter ≤ 4 is
tabulated in each of the twelve tables. -/
lemma tables_complete : ∀ inc ∈ allIncreaseTables, ∀ y q : ℤ,
    2024 ≤ y → y ≤ 2027 → 1 ≤ q → q ≤ 4 → (alookup (y, q) inc).isSome = true := by
  intro inc hinc y q h1 h2 h3 h4
  fin_cases hinc <;> interval_cases y <;> interval_cases q <;> decide

/-- C8: for any known customer class, every quarter inside the tabulated
horizon (2024 Q1 - 2027 Q4) is priced from the table, and every quarter
beyond it is priced as the tabulated 2027 Q4 price compounded by 1.23 % per
quarter over the quarters elapsed since 2027 Q4. -/
theorem quarter_pricing_table_and_extrapolation (ct : String) (bp : ℚ)
    (inc : List ((ℤ × ℤ) × ℚ)) (h : incOfClass ct bp = some inc) (y q : ℤ) :
    (2024 ≤ y → y ≤ 2027 → 1 ≤ q → q ≤ 4 →
      ∃ p, alookup (y, q) inc = some p ∧ quarterPrice inc y q = p) ∧
    (2027 < y → 1 ≤ q → q ≤ 4 →
      ∃ p27, alookup (2027, 4) inc = some p27 ∧
        quarterPrice inc y q = p27 * (1 + 0.0123) ^ ((y - 2027) * 4 + (q - 4))) := by
  have hmem := incOfClass_mem ct bp inc h
  constructor
  · intro h1 h2 h3 h4
    have hs := tables_complete inc hmem y q h1 h2 h3 h4
    rcases Option.isSome_iff_exists.mp hs with ⟨p, hp⟩
    refine ⟨p, hp, ?_⟩
    simp only [quarterPrice, hp]
  · intro h1 h3 h4
    have hnone := alookup_year_gt inc (tables_year_le inc hmem) y q h1
    have hs := tables_complete inc hmem 2027 4 (by norm_num) le_rfl (by norm_num) le_rfl
    rcases Option.isSome_iff_exists.mp hs with ⟨p27, hp27⟩
    refine ⟨p27, hp27, ?_⟩
    simp only [quarterPrice, hnone, hp27, Option.getD_some]

/-- C8 (witness): for the commercial class, 2025 Q3 is read from the table
and 2028 Q1 is the 2027 Q4 price compounded one quarter. -/
theorem quarter_pricing_witness :
    (∃ p, alookup ((2025:ℤ), (3:ℤ)) commercialData.increases = some p ∧
        quarterPrice commercialData.increases 2025 3 = p) ∧
    (∃ p27, alookup ((2027:ℤ), (4:ℤ)) commercialData.increases = some p27 ∧
        quarterPrice commercialData.increases 2028 1
          = p27 * (1 + 0.0123) ^ (((2028:ℤ) - 2027) * 4 + ((1:ℤ) - 4))) := by
  have h := quarter_pricing_table_and_extrapolation "commercial" 2.12
    commercialData.increases rfl 2025 3
  have h2 := quarter_pricing_table_and_extrapolation "commercial" 2.12
    commercialData.increases rfl 2028 1
  exact ⟨h.1 (by norm_num) (by norm_num) (by norm_num) (by norm_num),
    h2.2 (by norm_num) (by norm_num) (by norm_num)⟩

/-- The `for` loop of `paybackAux` returns `i + k` when `k` is the first
1-based offset whose cumulative sum (on top of `cum`) reaches the
investment. -/
lemma paybackAux_found (inv : ℚ) : ∀ (l : List ℚ) (cum : ℚ) (i d : ℕ) (k : ℕ),
    0 < k → k ≤ l.length → inv ≤ cum + (l.take k).sum →
    (∀ j, 0 < j → j < k → cum + (l.take j).sum < inv) →
    paybackAux inv l cum i d = i + k := by
  intro l
  induction l with
  | nil =>
    intro cum i d k hk hlen _ _
    simp at hlen
    omega
  | cons s rest ih =>
    intro cum i d k hk hlen hsum hmin
    obtain ⟨k', rfl⟩ : ∃ k', k = k' + 1 := ⟨k - 1, by omega⟩
    by_cases hc : inv ≤ cum + s
    · have hk0 : k' = 0 := by
        by_contra hne
        have h1 := hmin 1 (by omega) (by omega)
        simp [List.take] at h1
        linarith
      subst hk0
      simp [paybackAux, if_pos hc]
    · have hk1 : 1 ≤ k' := by
        by_contra hne
        have hk0 : k' = 0 := by omega
        subst hk0
        simp [List.take] at hsum
        exact hc (by linarith)
      rw [show paybackAux inv (s :: rest) cum i d = paybackAux inv rest (cum + s) (i + 1) d from by
        simp [paybackAux, if_neg hc]]
      rw [ih (cum + s) (i + 1) d k' hk1 (by simp at hlen; omega)
        (by simp only [List.take_succ_cons, List.sum_cons] at hsum; linarith)
        (fun j hj hjk => by
          have := hmin (j + 1) (by omega) (by omega)
          simp only [List.take_succ_cons, List.sum_cons] at this
          linarith)]
      omega

/-- The payback loop falls through to the default when no prefix ever
reaches the investment. -/
lemma paybackAux_none (inv : ℚ) : ∀ (l : List ℚ) (cum : ℚ) (i d : ℕ),
    (∀ j, 0 < j → j ≤ l.length → cum + (l.take j).sum < inv) →
    paybackAux inv l cum i d = d := by
  intro l
  induction l with
  | nil => intro cum i d _; rfl
  | cons s rest ih =>
    intro cum i d hmin
    have h1 := hmin 1 (by omega) (by simp)
    simp [List.take] at h1
    rw [show paybackAux inv (s :: rest) cum i d = paybackAux inv rest (cum + s) (i + 1) d from by
      simp [paybackAux, if_neg (not_le.mpr h1)]]
    exact ih (cum + s) (i + 1) d (fun j hj hlen => by
      have := hmin (j + 1) (by omega) (by simp; omega)
      simp only [List.take_succ_cons, List.sum_cons] at this
      linarith)

/-- C3: the payback period of `financial_analysis` equals the smallest
1-based year index whose cumulative savings reach the investment, and
defaults to `lifetime` when no such index exists; in particular 5 for a 1000
investment with constant 200 savings, and `lifetime` for all-zero savings
(the loop is total, so there is no crash or divergence). -/
theorem payback_period_first_reaching_year :
    (∀ (investment : ℚ) (savings : List ℚ) (lifetime k : ℕ),
        0 < k → k ≤ savings.length → investment ≤ (savings.take k).sum →
        (∀ j, 0 < j → j < k → (savings.take j).sum < investment) →
        payback_period investment savings lifetime = k) ∧
    (∀ (investment : ℚ) (savings : List ℚ) (lifetime : ℕ),
        (∀ j, 0 < j → j ≤ savings.length → (savings.take j).sum < investment) →
        payback_period investment savings lifetime = lifetime) ∧
    payback_period 1000 (List.replicate 25 (200:ℚ)) 25 = 5 ∧
    payback_period 1000 (List.replicate 25 (0:ℚ)) 25 = 25 := by
  refine ⟨?_, ?_, ?_, ?_⟩
  · intro inv savings lifetime k hk hlen hsum hmin
    have h := paybackAux_found inv savings 0 0 lifetime k hk hlen (by simpa using hsum)
      (fun j hj hjk => by simpa using hmin j hj hjk)
    simpa [payback_period] using h
  · intro inv savings lifetime hmin
    exact paybackAux_none inv savings 0 0 lifetime
      (fun j hj hlen => by simpa using hmin j hj hlen)
  · norm_num [payback_period, paybackAux, List.replicate]
  · norm_num [payback_period, paybackAux, List.replicate]

/-- C3 (witness): two 600-per-year savings repay a 1000 investment in year 2;
a single 5-per-year saving never repays 100 and yields the lifetime 7. -/
theorem payback_period_witness :
    payback_period 1000 ([600, 600] : List ℚ) 7 = 2 ∧
    payback_period 100 ([5] : List ℚ) 7 = 7 := by
  constructor
  · refine payback_period_first_reaching_year.1 1000 [600, 600] 7 2 (by norm_num) (by simp) ?_ ?_
    · rw [show List.take 2 [(600:ℚ), 600] = [600, 600] from rfl]
      norm_num
    · intro j hj hjk
      interval_cases j
      rw [show List.take 1 [(600:ℚ), 600] = [600] from rfl]
      norm_num
  · refine payback_period_first_reaching_year.2.1 100 [5] 7 ?_
    intro j hj hlen
    simp at hlen
    interval_cases j
    rw [show List.take 1 [(5:ℚ)] = [5] from rfl]
    norm_num

/-- C6: with `create_scenarios` true the result carries exactly the
`optimistic` and `pessimistic` scenarios, each produced by one recursive
call with `create_scenarios=false`, and every scenario's own `scenarios`
entry is empty, so the recursion is one level deep. -/
theorem scenarios_exactly_two_one_level (P : FinParams) :
    (financial_analysis P true).scenarios
      = [("optimistic", financial_analysis (optimisticParams P) false),
         ("pessimistic", financial_analysis (pessimisticParams P) false)] ∧
    ∀ s ∈ (financial_analysis P true).scenarios, s.2.scenarios = [] := by
  have htrue : financial_analysis P true
      = .mk (financial_body P)
          [("optimistic", financial_analysis (optimisticParams P) false),
           ("pessimistic", financial_analysis (pessimisticParams P) false)] := by
    conv_lhs => rw [financial_analysis]
  have hfalse : ∀ Q, financial_analysis Q false = .mk (financial_body Q) [] := by
    intro Q
    conv_lhs => rw [financial_analysis]
  constructor
  · rw [htrue]; rfl
  · intro s hs
    rw [htrue] at hs
    simp only [FinResult.scenarios] at hs
    rcases List.mem_cons.mp hs with rfl | hs2
    · rw [hfalse]; rfl
    · rcases List.mem_cons.mp hs2 with rfl | hs3
      · rw [hfalse]; rfl
      · simp at hs3

/-- C6 (witness): at the concrete default parameters, the optimistic
scenario is one of the scenarios of the outer call and carries no nested
scenarios. -/
theorem scenarios_witness :
    (("optimistic", financial_analysis (optimisticParams testParams) false)
        ∈ (financial_analysis testParams true).scenarios) ∧
    (financial_analysis (optimisticParams testParams) false).scenarios = [] := by
  have h := scenarios_exactly_two_one_level testParams
  refine ⟨by rw [h.1]; exact List.mem_cons_self _ _, ?_⟩
  exact h.2 ("optimistic", financial_analysis (optimisticParams testParams) false)
    (by rw [h.1]; exact List.mem_cons_self _ _)

/-- C9: every ETB output field of `financial_analysis` equals its USD
counterpart multiplied by the caller-supplied conversion rate, for every
input and for both values of `create_scenarios`. -/
theorem etb_fields_are_usd_times_rate (P : FinParams) (b : Bool) :
    ((financial_analysis P b).body).investment_etb
        = ((financial_analysis P b).body).investment_usd * P.currency_conversion_rate ∧
    ((financial_analysis P b).body).annual_savings_first_year_etb
        = ((financial_analysis P b).body).annual_savings_first_year_usd
            * P.currency_conversion_rate ∧
    ((financial_analysis P b).body).cumulative_savings_etb
        = ((financial_analysis P b).body).cumulative_savings_usd * P.currency_conversion_rate ∧
    ((financial_analysis P b).body).npv_etb
        = ((financial_analysis P b).body).npv_usd * P.currency_conversion_rate ∧
    ((financial_analysis P b).body).lcoe_etb_per_kwh
        = ((financial_analysis P b).body).lcoe_usd_per_kwh * P.currency_conversion_rate ∧
    ((financial_analysis P b).body).cash_flows_etb
        = ((financial_analysis P b).body).cash_flows.map
            (fun flow => flow * P.currency_conversion_rate) ∧
    ((financial_analysis P b).body).cumulative_cash_flow_etb
        = ((financial_analysis P b).body).cumulative_cash_flow.map
            (fun flow => flow * P.currency_conversion_rate) ∧
    ((financial_analysis P b).body).currency_conversion_rate = P.currency_conversion_rate := by
  have hbody : (financial_analysis P b).body = financial_body P := by
    cases b <;> (conv_lhs => rw [financial_analysis]) <;> rfl
  rw [hbody]
  unfold financial_body
  exact ⟨rfl, rfl, rfl, rfl, rfl, rfl, rfl, rfl⟩


/-- Unfolding of one bisection iteration. -/
lemma bisectionLoop_succ (monthly_bill : ℚ) (br : List Bracket) (n : ℕ) (mn mx : ℚ) :
    bisectionLoop monthly_bill br (n + 1) mn mx
      = if 1 < mx - mn then
          (if calculate_bill br ((mn + mx) / 2) < monthly_bill then
            bisectionLoop monthly_bill br n ((mn + mx) / 2) mx
          else bisectionLoop monthly_bill br n mn ((mn + mx) / 2))
        else (mn, mx) := rfl

/-- Once the interval width is at most 1 the loop exits immediately. -/
lemma bisectionLoop_exit (monthly_bill : ℚ) (br : List Bracket) (mn mx : ℚ)
    (h : ¬ 1 < mx - mn) : ∀ n, bisectionLoop monthly_bill br n mn mx = (mn, mx) := by
  intro n
  cases n with
  | zero => rfl
  | succ n => rw [bisectionLoop_succ, if_neg h]

/-- Extra fuel does not change the result once the loop has exited, i.e.
the `while` loop terminates. -/
lemma bisectionLoop_fuel (monthly_bill : ℚ) (br : List Bracket) : ∀ (n k : ℕ) (mn mx : ℚ),
    ¬ 1 < (bisectionLoop monthly_bill br n mn mx).2 - (bisectionLoop monthly_bill br n mn mx).1 →
    bisectionLoop monthly_bill br (n + k) mn mx = bisectionLoop monthly_bill br n mn mx := by
  intro n
  induction n with
  | zero =>
    intro k mn mx h
    rw [Nat.zero_add]
    exact bisectionLoop_exit monthly_bill br mn mx h k
  | succ n ih =>
    intro k mn mx h
    by_cases hw : 1 < mx - mn
    · rw [bisectionLoop_succ, if_pos hw] at h
      by_cases hc : calculate_bill br ((mn + mx) / 2) < monthly_bill
      · rw [if_pos hc] at h
        rw [show n + 1 + k = n + k + 1 from by omega, bisectionLoop_succ, if_pos hw, if_pos hc,
            bisectionLoop_succ, if_pos hw, if_pos hc]
        exact ih k _ _ h
      · rw [if_neg hc] at h
        rw [show n + 1 + k = n + k + 1 from by omega, bisectionLoop_succ, if_pos hw, if_neg hc,
            bisectionLoop_succ, if_pos hw, if_neg hc]
        exact ih k _ _ h
    · rw [bisectionLoop_exit monthly_bill br mn mx hw, bisectionLoop_exit monthly_bill br mn mx hw]

set_option maxHeartbeats 2000000 in
/-- C4: the residential bisection from [0, 10000] for a 100 ETB monthly bill
exits after 14 iterations with an interval of width at most 1 kWh (any
larger fuel returns the same interval, so the `while` loop terminates on the
width condition), and the resulting estimated consumption - the interval
midpoint - reproduces the bill within 1 ETB under the tiered forward
calculation with 10 ETB fixed charge and 15 % VAT. -/
theorem residential_bisection_terminates_and_inverts :
    bisectionLoop 100 residentialBrackets 14 0 10000 = (114.74609375, 115.3564453125) ∧
    (115.3564453125 : ℚ) - 114.74609375 ≤ 1 ∧
    (∀ k, bisectionLoop 100 residentialBrackets (14 + k) 0 10000
        = bisectionLoop 100 residentialBrackets 14 0 10000) ∧
    (estimate_consumption_and_capacity 100 "residential" none 0
        none).estimated_monthly_consumption_kwh = ((114.74609375 : ℚ) + 115.3564453125) / 2 ∧
    |calculate_bill residentialBrackets
        ((estimate_consumption_and_capacity 100 "residential" none 0
            none).estimated_monthly_consumption_kwh) - 100| ≤ 1 := by
  have s14 : bisectionLoop 100 residentialBrackets 14 0 10000
      = bisectionLoop 100 residentialBrackets 13 0 5000 := by
    rw [show (14:ℕ) = 13 + 1 from rfl, bisectionLoop_succ,
        if_pos (show (1:ℚ) < 10000 - 0 from by norm_num),
        if_neg (show ¬ calculate_bill residentialBrackets ((0 + 10000) / 2) < 100 from by
          norm_num [calculate_bill, calcBillAux, bracketOpen, residentialBrackets, min_def])]
    norm_num
  have s13 : bisectionLoop 100 residentialBrackets 13 0 5000
      = bisectionLoop 100 residentialBrackets 12 0 2500 := by
    rw [show (13:ℕ) = 12 + 1 from rfl, bisectionLoop_succ,
        if_pos (show (1:ℚ) < 5000 - 0 from by norm_num),
        if_neg (show ¬ calculate_bill residentialBrackets ((0 + 5000) / 2) < 100 from by
          norm_num [calculate_bill, calcBillAux, bracketOpen, residentialBrackets, min_def])]
    norm_num
  have s12 : bisectionLoop 100 residentialBrackets 12 0 2500
      = bisectionLoop 100 residentialBrackets 11 0 1250 := by
    rw [show (12:ℕ) = 11 + 1 from rfl, bisectionLoop_succ,
        if_pos (show (1:ℚ) < 2500 - 0 from by norm_num),
        if_neg (show ¬ calculate_bill residentialBrackets ((0 + 2500) / 2) < 100 from by
          norm_num [calculate_bill, calcBillAux, bracketOpen, residentialBrackets, min_def])]
    norm_num
  have s11 : bisectionLoop 100 residentialBrackets 11 0 1250
      = bisectionLoop 100 residentialBrackets 10 0 625 := by
    rw [show (11:ℕ) = 10 + 1 from rfl, bisectionLoop_succ,
        if_pos (show (1:ℚ) < 1250 - 0 from by norm_num),
        if_neg (show ¬ calculate_bill residentialBrackets ((0 + 1250) / 2) < 100 from by
          norm_num [calculate_bill, calcBillAux, bracketOpen, residentialBrackets, min_def])]
    norm_num
  have s10 : bisectionLoop 100 residentialBrackets 10 0 625
      = bisectionLoop 100 residentialBrackets 9 0 312.5 := by
    rw [show (10:ℕ) = 9 + 1 from rfl, bisectionLoop_succ,
        if_pos (show (1:ℚ) < 625 - 0 from by norm_num),
        if_neg (show ¬ calculate_bill residentialBrackets ((0 + 625) / 2) < 100 from by
          norm_num [calculate_bill, calcBillAux, bracketOpen, residentialBrackets, min_def])]
    norm_num
  have s9 : bisectionLoop 100 residentialBrackets 9 0 312.5
      = bisectionLoop 100 residentialBrackets 8 0 156.25 := by
    rw [show (9:ℕ) = 8 + 1 from rfl, bisectionLoop_succ,
        if_pos (show (1:ℚ) < 312.5 - 0 from by norm_num),
        if_neg (show ¬ calculate_bill residentialBrackets ((0 + 312.5) / 2) < 100 from by
          norm_num [calculate_bill, calcBillAux, bracketOpen, residentialBrackets, min_def])]
    norm_num
  have s8 : bisectionLoop 100 residentialBrackets 8 0 156.25
      = bisectionLoop 100 residentialBrackets 7 78.125 156.25 := by
    rw [show (8:ℕ) = 7 + 1 from rfl, bisectionLoop_succ,
        if_pos (show (1:ℚ) < 156.25 - 0 from by norm_num),
        if_pos (show calculate_bill residentialBrackets ((0 + 156.25) / 2) < 100 from by
          norm_num [calculate_bill, calcBillAux, bracketOpen, residentialBrackets, min_def])]
    norm_num
  have s7 : bisectionLoop 100 residentialBrackets 7 78.125 156.25
      = bisectionLoop 100 residentialBrackets 6 78.125 117.1875 := by
    rw [show (7:ℕ) = 6 + 1 from rfl, bisectionLoop_succ,
        if_pos (show (1:ℚ) < 156.25 - 78.125 from by norm_num),
        if_neg (show ¬ calculate_bill residentialBrackets ((78.125 + 156.25) / 2) < 100 from by
          norm_num [calculate_bill, calcBillAux, bracketOpen, residentialBrackets, min_def])]
    norm_num
  have s6 : bisectionLoop 100 residentialBrackets 6 78.125 117.1875
      = bisectionLoop 100 residentialBrackets 5 97.65625 117.1875 := by
    rw [show (6:ℕ) = 5 + 1 from rfl, bisectionLoop_succ,
        if_pos (show (1:ℚ) < 117.1875 - 78.125 from by norm_num),
        if_pos (show calculate_bill residentialBrackets ((78.125 + 117.1875) / 2) < 100 from by
          norm_num [calculate_bill, calcBillAux, bracketOpen, residentialBrackets, min_def])]
    norm_num
  have s5 : bisectionLoop 100 residentialBrackets 5 97.65625 117.1875
      = bisectionLoop 100 residentialBrackets 4 107.421875 117.1875 := by
    rw [show (5:ℕ) = 4 + 1 from rfl, bisectionLoop_succ,
        if_pos (show (1:ℚ) < 117.1875 - 97.65625 from by norm_num),
        if_pos (show calculate_bill residentialBrackets ((97.65625 + 117.1875) / 2) < 100 from by
          norm_num [calculate_bill, calcBillAux, bracketOpen, residentialBrackets, min_def])]
    norm_num
  have s4 : bisectionLoop 100 residentialBrackets 4 107.421875 117.1875
      = bisectionLoop 100 residentialBrackets 3 112.3046875 117.1875 := by
    rw [show (4:ℕ) = 3 + 1 from rfl, bisectionLoop_succ,
        if_pos (show (1:ℚ) < 117.1875 - 107.421875 from by norm_num),
        if_pos (show calculate_bill residentialBrackets ((107.421875 + 117.1875) / 2) < 100 from by
          norm_num [calculate_bill, calcBillAux, bracketOpen, residentialBrackets, min_def])]
    norm_num
  have s3 : bisectionLoop 100 residentialBrackets 3 112.3046875 117.1875
      = bisectionLoop 100 residentialBrackets 2 114.74609375 117.1875 := by
    rw [show (3:ℕ) = 2 + 1 from rfl, bisectionLoop_succ,
        if_pos (show (1:ℚ) < 117.1875 - 112.3046875 from by norm_num),
        if_pos (show calculate_bill residentialBrackets ((112.3046875 + 117.1875) / 2) < 100 from by
          norm_num [calculate_bill, calcBillAux, bracketOpen, residentialBrackets, min_def])]
    norm_num
  have s2 : bisectionLoop 100 residentialBrackets 2 114.74609375 117.1875
      = bisectionLoop 100 residentialBrackets 1 114.74609375 115.966796875 := by
    rw [show (2:ℕ) = 1 + 1 from rfl, bisectionLoop_succ,
        if_pos (show (1:ℚ) < 117.1875 - 114.74609375 from by norm_num),
        if_neg (show ¬ calculate_bill residentialBrackets ((114.74609375 + 117.1875) / 2) < 100 from by
          norm_num [calculate_bill, calcBillAux, bracketOpen, residentialBrackets, min_def])]
    norm_num
  have s1 : bisectionLoop 100 residentialBrackets 1 114.74609375 115.966796875
      = bisectionLoop 100 residentialBrackets 0 114.74609375 115.3564453125 := by
    rw [show (1:ℕ) = 0 + 1 from rfl, bisectionLoop_succ,
        if_pos (show (1:ℚ) < 115.966796875 - 114.74609375 from by norm_num),
        if_neg (show ¬ calculate_bill residentialBrackets ((114.74609375 + 115.966796875) / 2) < 100 from by
          norm_num [calculate_bill, calcBillAux, bracketOpen, residentialBrackets, min_def])]
    norm_num
  have hloop : bisectionLoop 100 residentialBrackets 14 0 10000
      = ((114.74609375 : ℚ), (115.3564453125 : ℚ)) := by
    rw [s14, s13, s12, s11, s10, s9, s8, s7, s6, s5, s4, s3, s2, s1]
    rfl
  have hfuel : ∀ k, bisectionLoop 100 residentialBrackets (14 + k) 0 10000
      = bisectionLoop 100 residentialBrackets 14 0 10000 := by
    intro k
    exact bisectionLoop_fuel 100 residentialBrackets 14 k 0 10000 (by rw [hloop]; norm_num)
  have h20 : bisectionLoop 100 residentialBrackets 20 0 10000
      = ((114.74609375 : ℚ), (115.3564453125 : ℚ)) := by
    rw [show (20:ℕ) = 14 + 6 from rfl, hfuel 6, hloop]
  have hest : (estimate_consumption_and_capacity 100 "residential" none 0
      none).estimated_monthly_consumption_kwh = ((114.74609375 : ℚ) + 115.3564453125) / 2 := by
    unfold estimate_consumption_and_capacity estimateBody
    norm_num [substClass, knownClasses, isIndustrial, bracketsOf, h20]
    simp
  refine ⟨hloop, by norm_num, hfuel, hest, ?_⟩
  rw [hest, abs_le]
  constructor
  · norm_num [calculate_bill, calcBillAux, bracketOpen, residentialBrackets, min_def]
  · norm_num [calculate_bill, calcBillAux, bracketOpen, residentialBrackets, min_def]

/-- C10: an unknown customer type never fails: it is silently replaced by
`"residential"`, and the result equals that of a residential call with the
same bill, price, phase and peak-demand arguments. -/
theorem unknown_customer_type_defaults_residential (ct : String) (h : ct ∉ knownClasses)
    (monthly_bill : ℚ) (electricity_price : Option ℚ) (phase : ℕ)
    (peak_demand_kw : Option ℚ) :
    estimate_consumption_and_capacity monthly_bill ct electricity_price phase peak_demand_kw
      = estimate_consumption_and_capacity monthly_bill "residential" electricity_price phase
          peak_demand_kw := by
  unfold estimate_consumption_and_capacity
  have h1 : substClass ct = "residential" := by
    unfold substClass
    rw [if_neg h]
  have h2 : substClass "residential" = "residential" := by
    unfold substClass
    rw [if_pos (show ("residential" : String) ∈ knownClasses from by simp [knownClasses])]
  rw [h1, h2]

/-- C10 (witness): the customer type `"unknown"` is not a known class and
yields exactly the residential result. -/
theorem unknown_customer_type_defaults_residential_witness :
    (("unknown" : String) ∉ knownClasses) ∧
    estimate_consumption_and_capacity 100 "unknown" none 0 none
      = estimate_consumption_and_capacity 100 "residential" none 0 none := by
  have hne : ("unknown" : String) ∉ knownClasses := by simp [knownClasses]
  exact ⟨hne, unknown_customer_type_defaults_residential "unknown" hne 100 none 0 none⟩

end EthiopPV
